import Mathlib

/-!
Shallow embedding of `src/app.py` (videoSummarizer backend).

The file models the three request handlers `register`, `login` and
`summarize` as pure Lean functions over an explicit user store and an
explicit environment describing the behaviour of the external Gemini
client (whether it initialized, whether payload construction raises, and
what the single `generate_content` call does).

Modelling conventions:
* Python strings are Lean `String`s; `str.strip()` is `pyStrip` over the
  ASCII whitespace set (the handlers are exercised with ASCII inputs;
  exotic Unicode spaces and full case-folding such as the Kelvin sign are
  outside the model).
* A parsed JSON body is `Option` of a record of `Option String` fields:
  `none` stands for `request.get_json(silent=True)` returning a falsy
  value (missing, invalid, or empty-dict body), `some` for a truthy dict,
  with absent keys as `none` (Python `.get` with default).
* `werkzeug.security.generate_password_hash` is salted in the source; the
  model keeps its functional contract (checking succeeds exactly for the
  original password) with a deterministic injective stand-in.
* The regex `YOUTUBE_RE` with `re.IGNORECASE` is transcribed as a
  deterministic matcher: each optional group and the alternation are
  first-character disjoint, so the greedy, backtracking-free reading is
  equivalent to the regex; Python `.` does not match a newline.
* `google.genai.errors` is always importable on the paths where `client`
  is not `None` (both are set inside the same `try` block), so the
  `genai_errors and` guard in the handler is modelled as true; the inner
  detection `try/except` cannot raise in the model (`getattr` with a
  default and `isinstance` do not throw).
-/

namespace VideoSummarizer

/-- Python `str.strip()` whitespace (ASCII subset). -/
def isPySpace (c : Char) : Bool :=
  c = ' ' || c = '\t' || c = '\n' || c = '\r' || c = '\x0b' || c = '\x0c'

def pyStripList (s : List Char) : List Char :=
  ((s.dropWhile isPySpace).reverse.dropWhile isPySpace).reverse

/-- Python `str.strip()` (no argument). -/
def pyStrip (s : String) : String :=
  ⟨pyStripList s.data⟩

/-- ASCII lower-casing, used to model `re.IGNORECASE` on ASCII patterns. -/
def lowerAscii (c : Char) : Char :=
  if 'A' ≤ c ∧ c ≤ 'Z' then Char.ofNat (c.toNat + 32) else c

/-- Case-insensitively consume the pattern `p` from the front of `s`,
returning the rest on success. -/
def dropCI : List Char → List Char → Option (List Char)
  | [], s => some s
  | _ :: _, [] => none
  | p :: ps, c :: cs => if lowerAscii p = lowerAscii c then dropCI ps cs else none

/-- The regex group `(https?://)?`: consume the scheme if present.  The
two spellings are mutually exclusive and no rejected continuation can be
rescued by skipping the group (the remainder would have to start with
`www.`, `youtube.com/` or `youtu.be/`), so the greedy reading is exact. -/
def schemeStep (s : List Char) : List Char :=
  match dropCI "https://".data s with
  | some r => r
  | none =>
    match dropCI "http://".data s with
    | some r => r
    | none => s

/-- The regex group `(www\.)?`. -/
def wwwStep (s : List Char) : List Char :=
  match dropCI "www.".data s with
  | some r => r
  | none => s

/-- The alternation `((youtube\.com/)|(youtu\.be/))`; the two branches are
mutually exclusive (they diverge at their sixth character). -/
def hostStep (s : List Char) : Option (List Char) :=
  match dropCI "youtube.com/".data s with
  | some r => some r
  | none => dropCI "youtu.be/".data s

/-- The final `.+` of the regex: the remainder after the host prefix must
start with a character, and Python `.` does not match `'\n'`. -/
def tailCheck : Option (List Char) → Bool
  | some (c :: _) => c != '\n'
  | _ => false

/-- `YOUTUBE_RE = re.compile(r'^(https?://)?(www\.)?((youtube\.com/)|(youtu\.be/)).+', re.IGNORECASE)`,
matched with `re.match` (anchored at the start). -/
def matchYoutubeList (s : List Char) : Bool :=
  tailCheck (hostStep (wwwStep (schemeStep s)))

/-- `is_valid_youtube_url` from `src/app.py`: `bool(url and YOUTUBE_RE.match(url))`. -/
def is_valid_youtube_url (url : String) : Bool :=
  if url = "" then false else matchYoutubeList url.data

/-- Case-insensitive version of the initial-segment test, for the
spec-side phrasing of the URL shape rule. -/
def startsWithCI : List Char → List Char → Bool
  | [], _ => true
  | _ :: _, [] => false
  | p :: ps, c :: cs => (lowerAscii p = lowerAscii c) && startsWithCI ps cs

/-- The URL shape rule exactly as the spec words it: after optionally
stripping a leading scheme (`http://` or `https://`) and an optional
`www.` prefix, the candidate begins with `youtube.com/` or `youtu.be/`
(case-insensitive) followed by at least one more character. -/
def specUrlShape (url : String) : Bool :=
  let s := url.data
  let s1 := if startsWithCI "https://".data s then s.drop 8
            else if startsWithCI "http://".data s then s.drop 7
            else s
  let s2 := if startsWithCI "www.".data s1 then s1.drop 4 else s1
  (startsWithCI "youtube.com/".data s2 && !(s2.drop 12).isEmpty) ||
    (startsWithCI "youtu.be/".data s2 && !(s2.drop 9).isEmpty)

/-- `true` iff the list starts with a character other than `'\n'`. -/
def headNotNl : List Char → Bool
  | [] => false
  | c :: _ => c != '\n'

/-- The URL shape rule amended for Python `.`: the character right after
the `youtube.com/` or `youtu.be/` prefix must also not be a newline. -/
def specUrlShapeAmended (url : String) : Bool :=
  let s := url.data
  let s1 := if startsWithCI "https://".data s then s.drop 8
            else if startsWithCI "http://".data s then s.drop 7
            else s
  let s2 := if startsWithCI "www.".data s1 then s1.drop 4 else s1
  (startsWithCI "youtube.com/".data s2 && headNotNl (s2.drop 12)) ||
    (startsWithCI "youtu.be/".data s2 && headNotNl (s2.drop 9))

/-- `startsWithList p s`: `p` is an initial segment of `s` (exact characters). -/
def startsWithList : List Char → List Char → Bool
  | [], _ => true
  | _ :: _, [] => false
  | p :: ps, c :: cs => (p = c) && startsWithList ps cs

/-- `containsSub needle hay`: Python `needle in hay` on strings. -/
def containsSub (needle : List Char) : List Char → Bool
  | [] => needle.isEmpty
  | c :: cs => startsWithList needle (c :: cs) || containsSub needle cs

def strContains (hay needle : String) : Bool :=
  containsSub needle.data hay.data

/-- Stand-in for `werkzeug.security.generate_password_hash`: deterministic
and injective; the source's salted hash satisfies the same functional
contract (verification succeeds exactly for the hashed password). -/
def generate_password_hash (p : String) : String :=
  "pbkdf2-sha256$" ++ p

/-- Stand-in for `werkzeug.security.check_password_hash`. -/
def check_password_hash (stored given : String) : Bool :=
  stored == generate_password_hash given

/-- `memory_db["users"]`: username → password hash, in insertion order. -/
abbrev UserStore := List (String × String)

/-- Python dict lookup `memory_db["users"].get(username)` (also decides
`username in memory_db["users"]`). -/
def storeFind : UserStore → String → Option String
  | [], _ => none
  | (k, v) :: rest, u => if k = u then some v else storeFind rest u

/-- One JSON response with its HTTP status code. -/
structure ApiResponse where
  code : Nat
  status : String
  message : Option String
  summary : Option String
  url : Option String
deriving DecidableEq

/-- Body of `/api/register` and `/api/login`. -/
structure AuthBody where
  username : Option String
  password : Option String
deriving DecidableEq

/-- One part of the multi-part Gemini payload. -/
inductive Part where
  | fileData (file_uri : String) (mime_type : String)
  | text (t : String)
deriving DecidableEq

/-- Result of a handler: the HTTP response, the user store afterwards, and
the payloads sent to `client.models.generate_content` during the request. -/
structure HandlerResult where
  response : ApiResponse
  store : UserStore
  geminiCalls : List (List Part)
deriving DecidableEq

/-- `register` from `src/app.py`. -/
def register (store : UserStore) (body : Option AuthBody) : HandlerResult :=
  match body with
  | none =>
    ⟨⟨400, "error", some "Invalid or missing JSON body", none, none⟩, store, []⟩
  | some data =>
    let username := pyStrip (data.username.getD "")
    let password := data.password.getD ""
    if username = "" ∨ password = "" then
      ⟨⟨400, "error", some "username and password are required", none, none⟩, store, []⟩
    else if (storeFind store username).isSome then
      ⟨⟨409, "error", some "User already exists", none, none⟩, store, []⟩
    else
      ⟨⟨201, "success", some "User registered", none, none⟩,
        store ++ [(username, generate_password_hash password)], []⟩

/-- `login` from `src/app.py`. -/
def login (store : UserStore) (body : Option AuthBody) : HandlerResult :=
  match body with
  | none =>
    ⟨⟨400, "error", some "Invalid or missing JSON body", none, none⟩, store, []⟩
  | some data =>
    let username := pyStrip (data.username.getD "")
    let password := data.password.getD ""
    if username = "" ∨ password = "" then
      ⟨⟨400, "error", some "username and password are required", none, none⟩, store, []⟩
    else
      match storeFind store username with
      | none => ⟨⟨404, "error", some "User not found", none, none⟩, store, []⟩
      | some stored =>
        if check_password_hash stored password then
          ⟨⟨200, "success", some "Login successful", none, none⟩, store, []⟩
        else
          ⟨⟨401, "error", some "Incorrect password", none, none⟩, store, []⟩

/-- Body of `/api/summarize`. -/
structure SummarizeBody where
  url : Option String
  prompt : Option String
deriving DecidableEq

/-- What the single `client.models.generate_content` call does if reached:
either a response (with its optional `.text` attribute and its `str()`
form) or an exception (with its class and `str(e)`). -/
inductive GeminiOutcome where
  | success (text : Option String) (strRepr : String)
  | failure (isClientError : Bool) (errStr : String)
deriving DecidableEq

/-- Process-start environment for `summarize`: whether `client` is not
`None`, whether the `Part`/`FileData` constructors raise (and with which
message), and the behaviour of the external call. -/
structure GeminiEnv where
  clientInitialized : Bool
  constructionError : Option String
  outcome : GeminiOutcome
deriving DecidableEq

def defaultPrompt : String :=
  "Summarize the content of this YouTube video in three bullet points."

/-- The fixed remediation text prepended on quota classification. -/
def quotaMsg (err : String) : String :=
  "Quota exceeded for Gemini API. Free-tier/video processing can use many tokens. Consider enabling billing, switching to a cheaper model, or using transcripts instead. Raw error: " ++ err

/-- `getattr(response, "text", None) or str(response)`: Python `or` falls
through on a falsy (absent or empty) text. -/
def extractSummary (text : Option String) (strRepr : String) : String :=
  match text with
  | some t => if t = "" then strRepr else t
  | none => strRepr

/-- The quota-detection condition of `summarize`: the exception is a
`genai_errors.ClientError` and its text contains one of the sniffed
substrings. -/
def quotaDetect (isClientError : Bool) (err : String) : Bool :=
  isClientError &&
    (strContains err "RESOURCE_EXHAUSTED" || strContains err "Quota exceeded" ||
      strContains err "429")

/-- `summarize` from `src/app.py`. -/
def summarize (env : GeminiEnv) (store : UserStore) (body : Option SummarizeBody) :
    HandlerResult :=
  if env.clientInitialized = false then
    ⟨⟨500, "error",
      some "Gemini client not initialized. Check GEMINI_API_KEY and that google-genai is installed.",
      none, none⟩, store, []⟩
  else
    match body with
    | none =>
      ⟨⟨400, "error", some "Invalid or missing JSON body", none, none⟩, store, []⟩
    | some data =>
      let youtube_url := pyStrip (data.url.getD "")
      let prompt_text := pyStrip (data.prompt.getD defaultPrompt)
      if youtube_url = "" then
        ⟨⟨400, "error", some "Missing 'url' field", none, none⟩, store, []⟩
      else if is_valid_youtube_url youtube_url = false then
        ⟨⟨400, "error", some "Invalid YouTube URL", none, none⟩, store, []⟩
      else
        match env.constructionError with
        | some m =>
          ⟨⟨500, "error", some ("Internal error preparing request: " ++ m), none, none⟩,
            store, []⟩
        | none =>
          let contents : List Part :=
            [Part.fileData youtube_url "video/mp4", Part.text prompt_text]
          match env.outcome with
          | GeminiOutcome.success text strRepr =>
            ⟨⟨200, "success", none, some (extractSummary text strRepr), some youtube_url⟩,
              store, [contents]⟩
          | GeminiOutcome.failure isCE err =>
            if quotaDetect isCE err then
              ⟨⟨429, "error", some (quotaMsg err), none, none⟩, store, [contents]⟩
            else
              ⟨⟨500, "error", some ("Gemini API error: " ++ err), none, none⟩,
                store, [contents]⟩

/-! ### Lemmas about the URL matcher -/

theorem dropCI_eq (p s : List Char) :
    dropCI p s = if startsWithCI p s then some (s.drop p.length) else none := by
  induction p generalizing s with
  | nil => simp [dropCI, startsWithCI]
  | cons a ps ih =>
    cases s with
    | nil => simp [dropCI, startsWithCI]
    | cons c cs =>
      by_cases h : lowerAscii a = lowerAscii c
      · simp [dropCI, startsWithCI, h, ih]
      · simp [dropCI, startsWithCI, h]

theorem startsWithCI_iff (p s : List Char) :
    startsWithCI p s = true ↔ (p.map lowerAscii) <+: (s.map lowerAscii) := by
  induction p generalizing s with
  | nil => simp [startsWithCI]
  | cons a ps ih =>
    cases s with
    | nil => simp [startsWithCI]
    | cons c cs => simp [startsWithCI, ih, List.cons_prefix_cons]

theorem schemeStep_eq (s : List Char) :
    schemeStep s =
      if startsWithCI "https://".data s then s.drop 8
      else if startsWithCI "http://".data s then s.drop 7
      else s := by
  have l8 : ("https://".data).length = 8 := rfl
  have l7 : ("http://".data).length = 7 := rfl
  unfold schemeStep
  rw [dropCI_eq, dropCI_eq, l8, l7]
  by_cases h1 : startsWithCI "https://".data s = true
  · simp [h1]
  · by_cases h2 : startsWithCI "http://".data s = true <;>
      simp [eq_false_of_ne_true h1, h2]

theorem wwwStep_eq (s : List Char) :
    wwwStep s = if startsWithCI "www.".data s then s.drop 4 else s := by
  have l4 : ("www.".data).length = 4 := rfl
  unfold wwwStep
  rw [dropCI_eq, l4]
  by_cases h : startsWithCI "www.".data s = true <;>
    simp [h]

theorem hostStep_eq (s : List Char) :
    hostStep s =
      if startsWithCI "youtube.com/".data s then some (s.drop 12)
      else if startsWithCI "youtu.be/".data s then some (s.drop 9)
      else none := by
  have l12 : ("youtube.com/".data).length = 12 := rfl
  have l9 : ("youtu.be/".data).length = 9 := rfl
  unfold hostStep
  rw [dropCI_eq, dropCI_eq, l12, l9]
  by_cases h1 : startsWithCI "youtube.com/".data s = true
  · simp [h1]
  · by_cases h2 : startsWithCI "youtu.be/".data s = true <;>
      simp [eq_false_of_ne_true h1, h2]

/-- The two host alternatives are mutually exclusive: they disagree at
their sixth character even up to case. -/
theorem ytcom_excl (s : List Char) (h : startsWithCI "youtube.com/".data s = true) :
    startsWithCI "youtu.be/".data s = false := by
  rw [startsWithCI_iff] at h
  by_contra hne
  have h2 : startsWithCI "youtu.be/".data s = true := by
    cases hb : startsWithCI "youtu.be/".data s
    · exact absurd hb hne
    · rfl
  rw [startsWithCI_iff] at h2
  have hcomp := List.prefix_or_prefix_of_prefix h2 h
  rcases hcomp with hc | hc
  · have : ¬ (("youtu.be/".data.map lowerAscii) <+: ("youtube.com/".data.map lowerAscii)) := by
      decide
    exact this hc
  · have : ¬ (("youtube.com/".data.map lowerAscii) <+: ("youtu.be/".data.map lowerAscii)) := by
      decide
    exact this hc

theorem tailCheck_hostStep (s : List Char) :
    tailCheck (hostStep s) =
      ((startsWithCI "youtube.com/".data s && headNotNl (s.drop 12)) ||
        (startsWithCI "youtu.be/".data s && headNotNl (s.drop 9))) := by
  rw [hostStep_eq]
  cases h1 : startsWithCI "youtube.com/".data s
  · cases h2 : startsWithCI "youtu.be/".data s
    · simp [h1, h2, tailCheck]
    · simp [h1, h2]
      cases s.drop 9 <;> simp [tailCheck, headNotNl]
  · have h2 := ytcom_excl s h1
    simp [h1, h2]
    cases s.drop 12 <;> simp [tailCheck, headNotNl]

/-- The accepted-link-shape check of the code agrees with the spec's
wording amended for the newline restriction of Python `.`. -/
theorem valid_eq_specAmended (url : String) :
    is_valid_youtube_url url = specUrlShapeAmended url := by
  by_cases h : url = ""
  · subst h; rfl
  · unfold is_valid_youtube_url specUrlShapeAmended matchYoutubeList
    rw [if_neg h, tailCheck_hostStep, wwwStep_eq, schemeStep_eq]

/-! ### Lemmas about the auth store -/

theorem storeFind_append (l : UserStore) (k v u : String) :
    storeFind (l ++ [(k, v)]) u =
      match storeFind l u with
      | some w => some w
      | none => if k = u then some v else none := by
  induction l with
  | nil => rfl
  | cons e rest ih =>
    obtain ⟨k', v'⟩ := e
    by_cases h : k' = u <;> simp [storeFind, h, ih]

theorem storeFind_none_iff (l : UserStore) (u : String) :
    storeFind l u = none ↔ u ∉ l.map Prod.fst := by
  induction l with
  | nil => simp [storeFind]
  | cons e rest ih =>
    obtain ⟨k, v⟩ := e
    by_cases h : k = u
    · subst h; simp [storeFind]
    · simp only [storeFind, if_neg h, List.map_cons, List.mem_cons, not_or, ih]
      constructor
      · intro hn; exact ⟨fun he => h he.symm, hn⟩
      · intro hn; exact hn.2

theorem gph_inj {p q : String} (h : generate_password_hash p = generate_password_hash q) :
    p = q := by
  unfold generate_password_hash at h
  have hd := congrArg String.data h
  have hp : ("pbkdf2-sha256$" ++ p).data = "pbkdf2-sha256$".data ++ p.data := by
    cases p; rfl
  have hq : ("pbkdf2-sha256$" ++ q).data = "pbkdf2-sha256$".data ++ q.data := by
    cases q; rfl
  rw [hp, hq] at hd
  have hdq : p.data = q.data := List.append_cancel_left hd
  exact String.ext hdq

theorem check_hash_iff (p q : String) :
    check_password_hash (generate_password_hash p) q = true ↔ q = p := by
  unfold check_password_hash
  rw [beq_iff_eq]
  constructor
  · intro h; exact (gph_inj h.symm)
  · intro h; rw [h]

theorem check_hash_false {p q : String} (h : q ≠ p) :
    check_password_hash (generate_password_hash p) q = false := by
  cases hb : check_password_hash (generate_password_hash p) q
  · rfl
  · exact absurd ((check_hash_iff p q).mp hb) h

/-! ### Lemmas about the summarize handler -/

theorem valid_ne_empty {u : String} (h : is_valid_youtube_url u = true) : ¬ (u = "") := by
  intro he
  rw [he] at h
  exact absurd h (by decide)

theorem summarize_store_inv (env : GeminiEnv) (store : UserStore)
    (body : Option SummarizeBody) : (summarize env store body).store = store := by
  unfold summarize
  dsimp only
  repeat' split
  all_goals rfl

theorem summarize_calls_le_one (env : GeminiEnv) (store : UserStore)
    (body : Option SummarizeBody) :
    (summarize env store body).geminiCalls.length ≤ 1 := by
  unfold summarize
  dsimp only
  repeat' split
  all_goals first
    | exact Nat.zero_le _
    | exact Nat.le_refl _

theorem register_no_call (store : UserStore) (body : Option AuthBody) :
    (register store body).geminiCalls = [] := by
  unfold register
  dsimp only [Option.getD]
  repeat' split
  all_goals rfl

theorem login_no_call (store : UserStore) (body : Option AuthBody) :
    (login store body).geminiCalls = [] := by
  unfold login
  dsimp only
  repeat' split
  all_goals rfl

/-- Shorthand for the stripped URL of a request body. -/
def reqUrl (b : SummarizeBody) : String := pyStrip (b.url.getD "")

/-- Shorthand for the stripped, possibly defaulted prompt of a request body. -/
def reqPrompt (b : SummarizeBody) : String := pyStrip (b.prompt.getD defaultPrompt)

/-- The two-part payload the handler builds for a validated request. -/
def builtPayload (b : SummarizeBody) : List Part :=
  [Part.fileData (reqUrl b) "video/mp4", Part.text (reqPrompt b)]

theorem summarize_ctor_error (env : GeminiEnv) (store : UserStore) (b : SummarizeBody)
    (m : String)
    (hinit : env.clientInitialized = true)
    (hvalid : is_valid_youtube_url (reqUrl b) = true)
    (hctor : env.constructionError = some m) :
    summarize env store (some b) =
      ⟨⟨500, "error", some ("Internal error preparing request: " ++ m), none, none⟩,
        store, []⟩ := by
  have hv : is_valid_youtube_url (pyStrip (b.url.getD "")) = true := hvalid
  have h1 : ¬ (env.clientInitialized = false) := by rw [hinit]; decide
  have h2 : ¬ (pyStrip (b.url.getD "") = "") := valid_ne_empty hv
  have h3 : ¬ (is_valid_youtube_url (pyStrip (b.url.getD "")) = false) := by
    rw [hv]; decide
  unfold summarize
  rw [hctor]
  dsimp only
  rw [if_neg h1, if_neg h2, if_neg h3]

theorem summarize_success (env : GeminiEnv) (store : UserStore) (b : SummarizeBody)
    (text : Option String) (strRepr : String)
    (hinit : env.clientInitialized = true)
    (hvalid : is_valid_youtube_url (reqUrl b) = true)
    (hctor : env.constructionError = none)
    (hout : env.outcome = GeminiOutcome.success text strRepr) :
    summarize env store (some b) =
      ⟨⟨200, "success", none, some (extractSummary text strRepr), some (reqUrl b)⟩,
        store, [builtPayload b]⟩ := by
  have hv : is_valid_youtube_url (pyStrip (b.url.getD "")) = true := hvalid
  have h1 : ¬ (env.clientInitialized = false) := by rw [hinit]; decide
  have h2 : ¬ (pyStrip (b.url.getD "") = "") := valid_ne_empty hv
  have h3 : ¬ (is_valid_youtube_url (pyStrip (b.url.getD "")) = false) := by
    rw [hv]; decide
  unfold summarize
  rw [hctor, hout]
  dsimp only
  rw [if_neg h1, if_neg h2, if_neg h3]
  rfl

theorem summarize_failure (env : GeminiEnv) (store : UserStore) (b : SummarizeBody)
    (isCE : Bool) (err : String)
    (hinit : env.clientInitialized = true)
    (hvalid : is_valid_youtube_url (reqUrl b) = true)
    (hctor : env.constructionError = none)
    (hout : env.outcome = GeminiOutcome.failure isCE err) :
    summarize env store (some b) =
      if quotaDetect isCE err then
        ⟨⟨429, "error", some (quotaMsg err), none, none⟩, store, [builtPayload b]⟩
      else
        ⟨⟨500, "error", some ("Gemini API error: " ++ err), none, none⟩,
          store, [builtPayload b]⟩ := by
  have hv : is_valid_youtube_url (pyStrip (b.url.getD "")) = true := hvalid
  have h1 : ¬ (env.clientInitialized = false) := by rw [hinit]; decide
  have h2 : ¬ (pyStrip (b.url.getD "") = "") := valid_ne_empty hv
  have h3 : ¬ (is_valid_youtube_url (pyStrip (b.url.getD "")) = false) := by
    rw [hv]; decide
  unfold summarize
  rw [hctor, hout]
  dsimp only
  rw [if_neg h1, if_neg h2, if_neg h3]
  rfl

theorem summarize_empty_url (env : GeminiEnv) (store : UserStore) (b : SummarizeBody)
    (hinit : env.clientInitialized = true)
    (hempty : reqUrl b = "") :
    summarize env store (some b) =
      ⟨⟨400, "error", some "Missing 'url' field", none, none⟩, store, []⟩ := by
  have he : pyStrip (b.url.getD "") = "" := hempty
  have h1 : ¬ (env.clientInitialized = false) := by rw [hinit]; decide
  unfold summarize
  dsimp only
  rw [if_neg h1, if_pos he]

theorem summarize_invalid_url (env : GeminiEnv) (store : UserStore) (b : SummarizeBody)
    (hinit : env.clientInitialized = true)
    (hne : ¬ (reqUrl b = ""))
    (hbad : is_valid_youtube_url (reqUrl b) = false) :
    summarize env store (some b) =
      ⟨⟨400, "error", some "Invalid YouTube URL", none, none⟩, store, []⟩ := by
  have hn : ¬ (pyStrip (b.url.getD "") = "") := hne
  have hb : is_valid_youtube_url (pyStrip (b.url.getD "")) = false := hbad
  have h1 : ¬ (env.clientInitialized = false) := by rw [hinit]; decide
  unfold summarize
  dsimp only
  rw [if_neg h1, if_neg hn, if_pos hb]

theorem summarize_uninit (env : GeminiEnv) (store : UserStore)
    (body : Option SummarizeBody) (h : env.clientInitialized = false) :
    summarize env store body =
      ⟨⟨500, "error",
        some "Gemini client not initialized. Check GEMINI_API_KEY and that google-genai is installed.",
        none, none⟩, store, []⟩ := by
  unfold summarize
  rw [if_pos h]

theorem summarize_none_body (env : GeminiEnv) (store : UserStore) :
    (summarize env store none).geminiCalls = [] := by
  unfold summarize
  dsimp only
  split
  · rfl
  · rfl

theorem register_new (store : UserStore) (u p : String)
    (hu : pyStrip u ≠ "") (hp : p ≠ "")
    (hnew : storeFind store (pyStrip u) = none) :
    register store (some ⟨some u, some p⟩) =
      ⟨⟨201, "success", some "User registered", none, none⟩,
        store ++ [(pyStrip u, generate_password_hash p)], []⟩ := by
  have hc1 : ¬ (pyStrip u = "" ∨ p = "") := by
    intro hor
    rcases hor with h | h
    · exact hu h
    · exact hp h
  have hc2 : ¬ ((storeFind store (pyStrip u)).isSome = true) := by
    rw [hnew]; decide
  unfold register
  dsimp only [Option.getD]
  rw [if_neg hc1, if_neg hc2]

theorem register_exists (store : UserStore) (u p : String)
    (hu : pyStrip u ≠ "") (hp : p ≠ "")
    (hex : (storeFind store (pyStrip u)).isSome = true) :
    register store (some ⟨some u, some p⟩) =
      ⟨⟨409, "error", some "User already exists", none, none⟩, store, []⟩ := by
  have hc1 : ¬ (pyStrip u = "" ∨ p = "") := by
    intro hor
    rcases hor with h | h
    · exact hu h
    · exact hp h
  unfold register
  dsimp only [Option.getD]
  rw [if_neg hc1, if_pos hex]

theorem login_ok (store : UserStore) (u p : String) {stored : String}
    (hu : pyStrip u ≠ "") (hp : p ≠ "")
    (hfind : storeFind store (pyStrip u) = some stored)
    (hck : check_password_hash stored p = true) :
    login store (some ⟨some u, some p⟩) =
      ⟨⟨200, "success", some "Login successful", none, none⟩, store, []⟩ := by
  have hc1 : ¬ (pyStrip u = "" ∨ p = "") := by
    intro hor
    rcases hor with h | h
    · exact hu h
    · exact hp h
  unfold login
  dsimp only [Option.getD]
  rw [if_neg hc1, hfind]
  dsimp only
  rw [if_pos hck]

theorem login_wrong (store : UserStore) (u p : String) {stored : String}
    (hu : pyStrip u ≠ "") (hp : p ≠ "")
    (hfind : storeFind store (pyStrip u) = some stored)
    (hck : check_password_hash stored p = false) :
    login store (some ⟨some u, some p⟩) =
      ⟨⟨401, "error", some "Incorrect password", none, none⟩, store, []⟩ := by
  have hc1 : ¬ (pyStrip u = "" ∨ p = "") := by
    intro hor
    rcases hor with h | h
    · exact hu h
    · exact hp h
  have hckn : ¬ (check_password_hash stored p = true) := by
    rw [hck]; decide
  unfold login
  dsimp only [Option.getD]
  rw [if_neg hc1, hfind]
  dsimp only
  rw [if_neg hckn]

theorem login_notfound (store : UserStore) (u p : String)
    (hu : pyStrip u ≠ "") (hp : p ≠ "")
    (hfind : storeFind store (pyStrip u) = none) :
    login store (some ⟨some u, some p⟩) =
      ⟨⟨404, "error", some "User not found", none, none⟩, store, []⟩ := by
  have hc1 : ¬ (pyStrip u = "" ∨ p = "") := by
    intro hor
    rcases hor with h | h
    · exact hu h
    · exact hp h
  unfold login
  dsimp only [Option.getD]
  rw [if_neg hc1, hfind]

/-! ### Claim theorems -/

/-- Claim C1, counterexample: an exception from the external call whose
message contains the substring `"429"` but which is not a
`genai_errors.ClientError` yields HTTP 500, not the HTTP 429 the claim
requires for every such exception. -/
theorem C1_counterexample :
    strContains "HTTP 429" "429" = true ∧
    (summarize ⟨true, none, GeminiOutcome.failure false "HTTP 429"⟩ []
        (some ⟨some "youtu.be/abc", none⟩)).response.code = 500 := by
  decide

/-- Claim C1 (amended): for an exception raised by the external call on a
validated request, if the exception is a `genai_errors.ClientError` and
its textual message contains `"RESOURCE_EXHAUSTED"`, `"Quota exceeded"`
or `"429"`, the request returns HTTP 429 with the fixed remediation
message followed by the raw error text; every other exception (not a
`ClientError`, or message containing none of the substrings) returns
HTTP 500 carrying the raw error text. -/
theorem C1_failure_classification (env : GeminiEnv) (store : UserStore)
    (b : SummarizeBody) (isCE : Bool) (err : String)
    (hinit : env.clientInitialized = true)
    (hvalid : is_valid_youtube_url (reqUrl b) = true)
    (hctor : env.constructionError = none)
    (hout : env.outcome = GeminiOutcome.failure isCE err) :
    (isCE = true →
      (strContains err "RESOURCE_EXHAUSTED" || strContains err "Quota exceeded" ||
          strContains err "429") = true →
      (summarize env store (some b)).response =
        ⟨429, "error", some (quotaMsg err), none, none⟩) ∧
    ((isCE = false ∨
        (strContains err "RESOURCE_EXHAUSTED" || strContains err "Quota exceeded" ||
          strContains err "429") = false) →
      (summarize env store (some b)).response =
        ⟨500, "error", some ("Gemini API error: " ++ err), none, none⟩) := by
  have hs := summarize_failure env store b isCE err hinit hvalid hctor hout
  constructor
  · intro hce hsub
    have hq : quotaDetect isCE err = true := by
      unfold quotaDetect
      rw [hce, hsub]
      decide
    rw [hs, if_pos hq]
  · intro hor
    have hq : ¬ (quotaDetect isCE err = true) := by
      unfold quotaDetect
      rcases hor with hce | hsub
      · rw [hce]; simp
      · rw [hsub]; simp
    rw [hs, if_neg hq]

/-- Witness for C1: a `ClientError` with `"429"` in its message is mapped
to HTTP 429; the same message on a non-`ClientError` exception is mapped
to HTTP 500. -/
theorem C1_failure_classification_witness :
    (summarize ⟨true, none, GeminiOutcome.failure true "err 429"⟩ []
        (some ⟨some "youtu.be/a", none⟩)).response =
      ⟨429, "error", some (quotaMsg "err 429"), none, none⟩ ∧
    (summarize ⟨true, none, GeminiOutcome.failure false "err 429"⟩ []
        (some ⟨some "youtu.be/a", none⟩)).response =
      ⟨500, "error", some ("Gemini API error: " ++ "err 429"), none, none⟩ := by
  constructor
  · exact (C1_failure_classification ⟨true, none, GeminiOutcome.failure true "err 429"⟩
      [] ⟨some "youtu.be/a", none⟩ true "err 429" rfl (by decide) rfl rfl).1 rfl (by decide)
  · exact (C1_failure_classification ⟨true, none, GeminiOutcome.failure false "err 429"⟩
      [] ⟨some "youtu.be/a", none⟩ false "err 429" rfl (by decide) rfl rfl).2 (Or.inl rfl)

/-- Claim C2, counterexample: a request whose prompt field is present but
whitespace-only is not rejected with HTTP 400 — it is forwarded to the
external call with an empty text part and succeeds with HTTP 200. -/
theorem C2_counterexample :
    (summarize ⟨true, none, GeminiOutcome.success (some "S") "r"⟩ []
        (some ⟨some "youtu.be/abc", some "   "⟩)).response.code = 200 ∧
    (summarize ⟨true, none, GeminiOutcome.success (some "S") "r"⟩ []
        (some ⟨some "youtu.be/abc", some "   "⟩)).geminiCalls =
      [[Part.fileData "youtu.be/abc" "video/mp4", Part.text ""]] := by
  decide

/-- Claim C2 (amended): the prompt is defaulted to the fixed instruction
text when absent and then stripped; validation rejects with HTTP 400 only
an empty-or-whitespace url (and, separately, an invalid URL shape) — a
present but empty or whitespace-only prompt is not rejected, and the
stripped (possibly empty) prompt is forwarded in the payload. -/
theorem C2_validation_defaulting (env : GeminiEnv) (store : UserStore)
    (b : SummarizeBody) (hinit : env.clientInitialized = true) :
    (reqUrl b = "" →
      (summarize env store (some b)).response =
        ⟨400, "error", some "Missing 'url' field", none, none⟩) ∧
    (is_valid_youtube_url (reqUrl b) = true → env.constructionError = none →
      (summarize env store (some b)).geminiCalls = [builtPayload b]) := by
  constructor
  · intro he
    rw [summarize_empty_url env store b hinit he]
  · intro hv hc
    cases ho : env.outcome with
    | success text strRepr =>
      rw [summarize_success env store b text strRepr hinit hv hc ho]
    | failure isCE err =>
      rw [summarize_failure env store b isCE err hinit hv hc ho]
      by_cases hq : quotaDetect isCE err = true
      · rw [if_pos hq]
      · rw [if_neg hq]

/-- Witness for C2: a whitespace url is rejected with 400; a valid url
with a whitespace-only prompt is forwarded (prompt stripped to empty). -/
theorem C2_validation_defaulting_witness :
    (summarize ⟨true, none, GeminiOutcome.success (some "S") "r"⟩ []
        (some ⟨some "   ", some "p"⟩)).response =
      ⟨400, "error", some "Missing 'url' field", none, none⟩ ∧
    (summarize ⟨true, none, GeminiOutcome.success (some "S") "r"⟩ []
        (some ⟨some "youtu.be/a", some "  "⟩)).geminiCalls =
      [builtPayload ⟨some "youtu.be/a", some "  "⟩] :=
  ⟨(C2_validation_defaulting ⟨true, none, GeminiOutcome.success (some "S") "r"⟩ []
      ⟨some "   ", some "p"⟩ rfl).1 (by decide),
   (C2_validation_defaulting ⟨true, none, GeminiOutcome.success (some "S") "r"⟩ []
      ⟨some "youtu.be/a", some "  "⟩ rfl).2 (by decide) rfl⟩

/-- Claim C3, counterexample: `"youtube.com/\n"` satisfies the claimed
acceptance condition (prefix followed by at least one more character) but
the code rejects it, because Python `.` does not match a newline. -/
theorem C3_counterexample :
    specUrlShape "youtube.com/\n" = true ∧
    is_valid_youtube_url "youtube.com/\n" = false := by
  decide

/-- Claim C3 (amended): the URL shape check accepts a candidate if and
only if, after an optional leading scheme `http://` or `https://` and an
optional `www.` prefix, it begins with `youtube.com/` or `youtu.be/`
case-insensitively, followed by at least one more character whose first
character is not a newline; the claim's six listed examples all behave
as stated. -/
theorem C3_url_shape :
    (∀ url : String, is_valid_youtube_url url = specUrlShapeAmended url) ∧
    is_valid_youtube_url "https://www.youtube.com/watch?v=x" = true ∧
    is_valid_youtube_url "youtu.be/abc" = true ∧
    is_valid_youtube_url "http://YOUTUBE.COM/xyz" = true ∧
    is_valid_youtube_url "ftp://youtube.com/x" = false ∧
    is_valid_youtube_url "youtube.com" = false ∧
    is_valid_youtube_url "" = false :=
  ⟨valid_eq_specAmended, by decide, by decide, by decide, by decide, by decide,
    by decide⟩

/-- Claim C4: the external generative-content service is invoked only on
requests whose (stripped) URL passed the accepted-link-shape check. -/
theorem C4_call_requires_valid_url (env : GeminiEnv) (store : UserStore)
    (body : Option SummarizeBody)
    (h : (summarize env store body).geminiCalls ≠ []) :
    ∃ b, body = some b ∧ is_valid_youtube_url (reqUrl b) = true := by
  cases body with
  | none => exact absurd (summarize_none_body env store) h
  | some b =>
    refine ⟨b, rfl, ?_⟩
    by_contra hv
    apply h
    have hvf : is_valid_youtube_url (reqUrl b) = false := by
      cases hb : is_valid_youtube_url (reqUrl b)
      · rfl
      · exact absurd hb hv
    cases hc : env.clientInitialized
    · rw [summarize_uninit env store (some b) hc]
    · by_cases hemp : reqUrl b = ""
      · rw [summarize_empty_url env store b hc hemp]
      · rw [summarize_invalid_url env store b hc hemp hvf]

/-- Witness for C4: a request that did reach the external call has a
validated URL. -/
theorem C4_call_requires_valid_url_witness :
    (summarize ⟨true, none, GeminiOutcome.success (some "S") "r"⟩ []
        (some ⟨some "youtu.be/a", none⟩)).geminiCalls ≠ [] ∧
    (∃ b, (some ⟨some "youtu.be/a", none⟩ : Option SummarizeBody) = some b ∧
      is_valid_youtube_url (reqUrl b) = true) :=
  ⟨by decide,
    C4_call_requires_valid_url ⟨true, none, GeminiOutcome.success (some "S") "r"⟩ []
      (some ⟨some "youtu.be/a", none⟩) (by decide)⟩

/-- Claim C5: when the external client failed to initialize, every
summarize request returns the fixed 500 response regardless of body, the
store is untouched and no external call is attempted; the check precedes
any parsing or validation (the body is arbitrary, including `none`). -/
theorem C5_service_unavailable (env : GeminiEnv) (store : UserStore)
    (body : Option SummarizeBody) (h : env.clientInitialized = false) :
    summarize env store body =
      ⟨⟨500, "error",
        some "Gemini client not initialized. Check GEMINI_API_KEY and that google-genai is installed.",
        none, none⟩, store, []⟩ :=
  summarize_uninit env store body h

/-- Witness for C5 at a concrete uninitialized environment. -/
theorem C5_service_unavailable_witness :
    ((⟨false, none, GeminiOutcome.success none "r"⟩ : GeminiEnv).clientInitialized
        = false) ∧
    summarize ⟨false, none, GeminiOutcome.success none "r"⟩ [("u", "h")]
        (some ⟨some "youtu.be/a", none⟩) =
      ⟨⟨500, "error",
        some "Gemini client not initialized. Check GEMINI_API_KEY and that google-genai is installed.",
        none, none⟩, [("u", "h")], []⟩ :=
  ⟨rfl, C5_service_unavailable ⟨false, none, GeminiOutcome.success none "r"⟩
    [("u", "h")] (some ⟨some "youtu.be/a", none⟩) rfl⟩

/-- Claim C6, counterexample: after a successful registration of
`"alice"`, re-registering `"alice"` with the password `""` returns
HTTP 400 (missing fields), not the HTTP 409 the claim requires for every
second password. -/
theorem C6_counterexample :
    (register [] (some ⟨some "alice", some "pw"⟩)).response.code = 201 ∧
    (register (register [] (some ⟨some "alice", some "pw"⟩)).store
        (some ⟨some "alice", some ""⟩)).response.code = 400 := by
  decide

/-- Claim C6 (amended): for a username whose stripped form is non-empty
and not yet in the store, and a non-empty password, registration returns
HTTP 201 and appends the stripped username with the password hash; an
immediately following registration of the same username with any
non-empty password returns HTTP 409 and leaves the store unchanged, and
registration preserves uniqueness of usernames in the store. -/
theorem C6_register_unique (store : UserStore) (u p p' : String)
    (hu : pyStrip u ≠ "") (hp : p ≠ "") (hp' : p' ≠ "")
    (hnew : storeFind store (pyStrip u) = none) :
    (register store (some ⟨some u, some p⟩)).response.code = 201 ∧
    (register store (some ⟨some u, some p⟩)).store =
      store ++ [(pyStrip u, generate_password_hash p)] ∧
    (register ((register store (some ⟨some u, some p⟩)).store)
        (some ⟨some u, some p'⟩)).response.code = 409 ∧
    (register ((register store (some ⟨some u, some p⟩)).store)
        (some ⟨some u, some p'⟩)).store =
      (register store (some ⟨some u, some p⟩)).store ∧
    ((store.map Prod.fst).Nodup →
      (((register store (some ⟨some u, some p⟩)).store).map Prod.fst).Nodup) := by
  have h1 := register_new store u p hu hp hnew
  have hfind2 : storeFind (store ++ [(pyStrip u, generate_password_hash p)])
      (pyStrip u) = some (generate_password_hash p) := by
    rw [storeFind_append, hnew]
    simp
  have h2 := register_exists (store ++ [(pyStrip u, generate_password_hash p)]) u p'
    hu hp' (by rw [hfind2]; rfl)
  refine ⟨by rw [h1], by rw [h1], ?_, ?_, ?_⟩
  · rw [h1]
    dsimp only
    rw [h2]
  · rw [h1]
    dsimp only
    rw [h2]
  · intro hnd
    rw [h1]
    dsimp only
    rw [List.map_append]
    refine List.Nodup.append hnd (List.nodup_singleton _) ?_
    intro x hx hx2
    rw [List.map_singleton, List.mem_singleton] at hx2
    subst hx2
    exact ((storeFind_none_iff store (pyStrip u)).mp hnew) hx

/-- Witness for C6 at a concrete fresh store. -/
theorem C6_register_unique_witness :
    (pyStrip "alice" ≠ "" ∧ ("pw" : String) ≠ "" ∧ ("x" : String) ≠ "" ∧
      storeFind [] (pyStrip "alice") = none) ∧
    (register [] (some ⟨some "alice", some "pw"⟩)).response.code = 201 ∧
    (register [] (some ⟨some "alice", some "pw"⟩)).store =
      [] ++ [(pyStrip "alice", generate_password_hash "pw")] ∧
    (register ((register [] (some ⟨some "alice", some "pw"⟩)).store)
        (some ⟨some "alice", some "x"⟩)).response.code = 409 ∧
    (register ((register [] (some ⟨some "alice", some "pw"⟩)).store)
        (some ⟨some "alice", some "x"⟩)).store =
      (register [] (some ⟨some "alice", some "pw"⟩)).store ∧
    ((([] : UserStore).map Prod.fst).Nodup →
      (((register [] (some ⟨some "alice", some "pw"⟩)).store).map Prod.fst).Nodup) := by
  have h := C6_register_unique [] "alice" "pw" "x" (by decide) (by decide) (by decide) rfl
  exact ⟨⟨by decide, by decide, by decide, rfl⟩, h.1, h.2.1, h.2.2.1, h.2.2.2.1,
    h.2.2.2.2⟩

/-- Claim C7, counterexample: for a registered user, logging in with the
(wrong) password `""` returns HTTP 400, not the HTTP 401 the claim
requires for any password other than the registered one. -/
theorem C7_counterexample :
    (login [("alice", generate_password_hash "pw")]
        (some ⟨some "alice", some ""⟩)).response =
      ⟨400, "error", some "username and password are required", none, none⟩ := by
  decide

/-- Claim C7 (amended): for a user registered with password `p` (username
key non-empty, `p` non-empty), login with `p` returns HTTP 200; login
with any non-empty password other than `p` returns HTTP 401; and login
with any unknown non-empty username and non-empty password returns HTTP
404. -/
theorem C7_login_classification (store : UserStore) (u p q w v : String)
    (hu : pyStrip u ≠ "") (hp : p ≠ "")
    (hreg : storeFind store (pyStrip u) = some (generate_password_hash p)) :
    (login store (some ⟨some u, some p⟩)).response =
      ⟨200, "success", some "Login successful", none, none⟩ ∧
    (q ≠ "" → q ≠ p →
      (login store (some ⟨some u, some q⟩)).response =
        ⟨401, "error", some "Incorrect password", none, none⟩) ∧
    (pyStrip w ≠ "" → v ≠ "" → storeFind store (pyStrip w) = none →
      (login store (some ⟨some w, some v⟩)).response =
        ⟨404, "error", some "User not found", none, none⟩) := by
  refine ⟨?_, ?_, ?_⟩
  · rw [login_ok store u p hu hp hreg ((check_hash_iff p p).mpr rfl)]
  · intro hq hqp
    rw [login_wrong store u q hu hq hreg (check_hash_false hqp)]
  · intro hw hv hnf
    rw [login_notfound store w v hw hv hnf]

/-- Witness for C7 at a concrete one-user store. -/
theorem C7_login_classification_witness :
    (pyStrip "alice" ≠ "" ∧ ("pw" : String) ≠ "" ∧
      storeFind [("alice", generate_password_hash "pw")] (pyStrip "alice") =
        some (generate_password_hash "pw")) ∧
    (login [("alice", generate_password_hash "pw")]
        (some ⟨some "alice", some "pw"⟩)).response =
      ⟨200, "success", some "Login successful", none, none⟩ ∧
    (login [("alice", generate_password_hash "pw")]
        (some ⟨some "alice", some "xx"⟩)).response =
      ⟨401, "error", some "Incorrect password", none, none⟩ ∧
    (login [("alice", generate_password_hash "pw")]
        (some ⟨some "bob", some "yy"⟩)).response =
      ⟨404, "error", some "User not found", none, none⟩ := by
  have h := C7_login_classification [("alice", generate_password_hash "pw")]
    "alice" "pw" "xx" "bob" "yy" (by decide) (by decide) (by decide)
  exact ⟨⟨by decide, by decide, by decide⟩, h.1, h.2.1 (by decide) (by decide),
    h.2.2 (by decide) (by decide) (by decide)⟩

/-- Claim C8: a validated request builds exactly the two-part payload —
a video reference part with the literal (stripped) URL and the fixed MIME
type `video/mp4`, then a text part with the (possibly defaulted, stripped)
prompt — and a construction failure is caught and mapped to HTTP 500 with
the underlying message attached, without calling the external service. -/
theorem C8_payload_construction (env : GeminiEnv) (store : UserStore)
    (b : SummarizeBody)
    (hinit : env.clientInitialized = true)
    (hvalid : is_valid_youtube_url (reqUrl b) = true) :
    (env.constructionError = none →
      (summarize env store (some b)).geminiCalls =
        [[Part.fileData (reqUrl b) "video/mp4", Part.text (reqPrompt b)]]) ∧
    (∀ m, env.constructionError = some m →
      (summarize env store (some b)).response =
        ⟨500, "error", some ("Internal error preparing request: " ++ m), none, none⟩ ∧
      (summarize env store (some b)).geminiCalls = []) := by
  constructor
  · intro hc
    cases ho : env.outcome with
    | success text strRepr =>
      rw [summarize_success env store b text strRepr hinit hvalid hc ho]
      rfl
    | failure isCE err =>
      rw [summarize_failure env store b isCE err hinit hvalid hc ho]
      by_cases hq : quotaDetect isCE err = true
      · rw [if_pos hq]
        rfl
      · rw [if_neg hq]
        rfl
  · intro m hm
    rw [summarize_ctor_error env store b m hinit hvalid hm]
    exact ⟨rfl, rfl⟩

/-- Witness for C8: concrete payload on success, and concrete 500 when
payload construction raises. -/
theorem C8_payload_construction_witness :
    (summarize ⟨true, none, GeminiOutcome.success (some "S") "r"⟩ []
        (some ⟨some "youtu.be/a", some " p "⟩)).geminiCalls =
      [[Part.fileData (reqUrl ⟨some "youtu.be/a", some " p "⟩) "video/mp4",
        Part.text (reqPrompt ⟨some "youtu.be/a", some " p "⟩)]] ∧
    (summarize ⟨true, some "boom", GeminiOutcome.success (some "S") "r"⟩ []
        (some ⟨some "youtu.be/a", none⟩)).response =
      ⟨500, "error", some ("Internal error preparing request: " ++ "boom"),
        none, none⟩ ∧
    (summarize ⟨true, some "boom", GeminiOutcome.success (some "S") "r"⟩ []
        (some ⟨some "youtu.be/a", none⟩)).geminiCalls = [] := by
  have h1 := C8_payload_construction ⟨true, none, GeminiOutcome.success (some "S") "r"⟩
    [] ⟨some "youtu.be/a", some " p "⟩ rfl (by decide)
  have h2 := C8_payload_construction
    ⟨true, some "boom", GeminiOutcome.success (some "S") "r"⟩
    [] ⟨some "youtu.be/a", none⟩ rfl (by decide)
  exact ⟨h1.1 rfl, (h2.2 "boom" rfl).1, (h2.2 "boom" rfl).2⟩

/-- Claim C9: `summarize` never mutates the auth store, `register` and
`login` never invoke the external service, and `summarize` performs at
most the single outbound call. -/
theorem C9_no_cross_effects :
    (∀ (env : GeminiEnv) (store : UserStore) (body : Option SummarizeBody),
      (summarize env store body).store = store) ∧
    (∀ (store : UserStore) (body : Option AuthBody),
      (register store body).geminiCalls = [] ∧
      (login store body).geminiCalls = []) ∧
    (∀ (env : GeminiEnv) (store : UserStore) (body : Option SummarizeBody),
      (summarize env store body).geminiCalls.length ≤ 1) :=
  ⟨summarize_store_inv,
    fun store body => ⟨register_no_call store body, login_no_call store body⟩,
    summarize_calls_le_one⟩

/-- Claim C10: both `register` and `login` use the whitespace-stripped
username as the store key while passwords are stored and checked
unstripped, so usernames differing only in surrounding whitespace denote
the same account: registering `u` then logging in as `u'` with the same
(raw) password succeeds, and re-registering `u'` yields HTTP 409. -/
theorem C10_username_stripping (store : UserStore) (u u' p p' : String)
    (hstrip : pyStrip u = pyStrip u') (hu : pyStrip u ≠ "")
    (hp : p ≠ "") (hp' : p' ≠ "")
    (hnew : storeFind store (pyStrip u) = none) :
    (register store (some ⟨some u, some p⟩)).store =
      store ++ [(pyStrip u, generate_password_hash p)] ∧
    (login ((register store (some ⟨some u, some p⟩)).store)
        (some ⟨some u', some p⟩)).response.code = 200 ∧
    (register ((register store (some ⟨some u, some p⟩)).store)
        (some ⟨some u', some p'⟩)).response.code = 409 := by
  have h1 := register_new store u p hu hp hnew
  have hu' : pyStrip u' ≠ "" := by rw [← hstrip]; exact hu
  have hfind : storeFind (store ++ [(pyStrip u, generate_password_hash p)])
      (pyStrip u') = some (generate_password_hash p) := by
    rw [← hstrip, storeFind_append, hnew]
    simp
  refine ⟨by rw [h1], ?_, ?_⟩
  · rw [h1]
    dsimp only
    rw [login_ok _ u' p hu' hp hfind ((check_hash_iff p p).mpr rfl)]
  · rw [h1]
    dsimp only
    rw [register_exists _ u' p' hu' hp' (by rw [hfind]; rfl)]

/-- Witness for C10: `" alice "` and `"alice"` denote the same account,
and the password `" pw "` is stored unstripped. -/
theorem C10_username_stripping_witness :
    (pyStrip " alice " = pyStrip "alice" ∧ pyStrip " alice " ≠ "" ∧
      (" pw " : String) ≠ "" ∧ ("x" : String) ≠ "" ∧
      storeFind [] (pyStrip " alice ") = none) ∧
    (register [] (some ⟨some " alice ", some " pw "⟩)).store =
      [] ++ [(pyStrip " alice ", generate_password_hash " pw ")] ∧
    (login ((register [] (some ⟨some " alice ", some " pw "⟩)).store)
        (some ⟨some "alice", some " pw "⟩)).response.code = 200 ∧
    (register ((register [] (some ⟨some " alice ", some " pw "⟩)).store)
        (some ⟨some "alice", some "x"⟩)).response.code = 409 := by
  have h := C10_username_stripping [] " alice " "alice" " pw " "x"
    (by decide) (by decide) (by decide) (by decide) rfl
  exact ⟨⟨by decide, by decide, by decide, by decide, rfl⟩, h.1, h.2.1, h.2.2⟩

end VideoSummarizer
